import Mathlib

/- Formal model of the VdoPlayerAds repository (src/ads_player.py and
src/video_player.py), with theorems checking the specification's claims
about playlist scheduling, media scanning, configuration loading, image
scaling, orientation detection and the video playback delegate.

External effects (filesystem, subprocesses, the pygame display) are modelled
as explicit environment values passed to each operation; Python exceptions
are modelled with Except where a method body can raise, and methods whose
bodies catch every exception are total Lean functions. -/

/-- Exceptions raised inside the Python video-player method bodies:
subprocess.Popen raises FileNotFoundError when the executable is absent, and
any other launch failure is modelled as a generic runtime exception (every
Python exception the handlers see is one of these two, since both handlers
together cover all subclasses of Exception). -/
inductive PyExc
  | fileNotFound
  | runtimeError
deriving DecidableEq, Repr

/-- External process handle: alive is true exactly while poll() would return
None. -/
structure Proc where
  alive : Bool
deriving DecidableEq, Repr

/-- Mutable state of video_player.VideoPlayer: the is_playing flag and the
current_process handle (Python None modelled as none). -/
structure VPState where
  is_playing : Bool
  current_process : Option Proc
deriving DecidableEq, Repr

/-- Environment of a play_video call: whether the video path exists on disk,
which backend executables are installed, and whether launching an installed
backend fails at runtime with some non-FileNotFoundError exception. -/
structure Env where
  pathExists : Bool
  omxPresent : Bool
  vlcPresent : Bool
  omxRuntimeError : Bool
  vlcRuntimeError : Bool
deriving DecidableEq, Repr

/-- The three playback backends of video_player.py. -/
inductive Backend
  | omxplayer
  | vlc
  | pygame
deriving DecidableEq, Repr

/-- Observable trace of a play_video call: the backends that actually
produced playback (external process started, or placeholder drawing loop
entered), and the elapsed times at which the pygame placeholder drew a
frame (in unit time steps). -/
structure PlayTrace where
  launched : List Backend
  frames : List Nat
deriving DecidableEq, Repr

/-- Drawing loop of play_video_pygame, counting down the remaining time:
draw a frame at the current elapsed time, step time by one unit, repeat.
Structured on the remaining time so that it is structurally recursive. -/
def pygameLoopGo (remaining elapsed : Nat) : List Nat :=
  match remaining with
  | 0 => []
  | r + 1 => elapsed :: pygameLoopGo r (elapsed + 1)

/-- Frame times drawn by the placeholder loop in play_video_pygame starting
at a given elapsed time: the Python loop breaks once elapsed >= duration,
so frames are drawn at elapsed, elapsed+1, ..., duration-1. The
duration-less call, which would loop until a key press, is outside this
model: the scheduler always passes the positive display_duration. -/
def pygameLoop (duration elapsed : Nat) : List Nat :=
  pygameLoopGo (duration - elapsed) elapsed

/-- Model of VideoPlayer.play_video_pygame: set is_playing, draw the animated
placeholder until the duration elapses, clear is_playing; the whole body is
wrapped in try/except Exception (and is pure in-process drawing anyway), so
it never raises. The current_process handle is not touched. -/
def play_video_pygame (duration : Nat) (s : VPState) : Except PyExc (VPState × PlayTrace) :=
  Except.ok ({ s with is_playing := false }, ⟨[Backend.pygame], pygameLoop duration 0⟩)

/-- Try-block body of play_video_omxplayer: Popen the omxplayer command
(raising FileNotFoundError when the executable is absent, or a runtime
exception when the launch otherwise fails, before any state is written),
set current_process and is_playing, wait for the process to exit, clear
is_playing. The duration only adds a --timeout argument and has no effect
on the state. -/
def omx_body (env : Env) : Except PyExc (VPState × PlayTrace) :=
  if env.omxPresent = false then Except.error PyExc.fileNotFound
  else if env.omxRuntimeError = true then Except.error PyExc.runtimeError
  else Except.ok (⟨false, some ⟨false⟩⟩, ⟨[Backend.omxplayer], []⟩)

/-- Model of VideoPlayer.play_video_omxplayer: run the try-block with its two
handlers; except FileNotFoundError falls through to play_video_pygame
directly, except Exception logs and clears is_playing. Every exception is
caught, so the method as a whole never raises. -/
def play_video_omxplayer (env : Env) (duration : Nat) (s : VPState) :
    Except PyExc (VPState × PlayTrace) :=
  match omx_body env with
  | Except.ok r => Except.ok r
  | Except.error PyExc.fileNotFound => play_video_pygame duration s
  | Except.error PyExc.runtimeError => Except.ok ({ s with is_playing := false }, ⟨[], []⟩)

/-- Try-block body of play_video_vlc: Popen the cvlc command, set
current_process and is_playing; with a truthy duration, sleep for the
duration and call stop_video (which terminates the process and clears both
fields), otherwise wait for the process to exit; finally clear is_playing. -/
def vlc_body (env : Env) (duration : Nat) : Except PyExc (VPState × PlayTrace) :=
  if env.vlcPresent = false then Except.error PyExc.fileNotFound
  else if env.vlcRuntimeError = true then Except.error PyExc.runtimeError
  else if 0 < duration then Except.ok (⟨false, none⟩, ⟨[Backend.vlc], []⟩)
  else Except.ok (⟨false, some ⟨false⟩⟩, ⟨[Backend.vlc], []⟩)

/-- Model of VideoPlayer.play_video_vlc: run the try-block with its two
handlers; except FileNotFoundError falls through to play_video_pygame,
except Exception logs and clears is_playing. Never raises. -/
def play_video_vlc (env : Env) (duration : Nat) (s : VPState) :
    Except PyExc (VPState × PlayTrace) :=
  match vlc_body env duration with
  | Except.ok r => Except.ok r
  | Except.error PyExc.fileNotFound => play_video_pygame duration s
  | Except.error PyExc.runtimeError => Except.ok ({ s with is_playing := false }, ⟨[], []⟩)

/-- Model of VideoPlayer.play_video: a missing path returns at once with no
state change; otherwise call play_video_omxplayer inside an outer
try/except whose handler calls play_video_vlc inside a further try/except
whose handler calls play_video_pygame. Because play_video_omxplayer and
play_video_vlc catch every exception themselves, the outer handlers can
only trigger on an error value that those calls never produce. -/
def play_video (env : Env) (duration : Nat) (s : VPState) :
    Except PyExc (VPState × PlayTrace) :=
  if env.pathExists = false then Except.ok (s, ⟨[], []⟩)
  else
    match play_video_omxplayer env duration s with
    | Except.ok r => Except.ok r
    | Except.error _ =>
      match play_video_vlc env duration s with
      | Except.ok r => Except.ok r
      | Except.error _ => play_video_pygame duration s

/-- Process-control actions stop_video may perform. -/
inductive StopAction
  | terminate
  | wait
  | kill
deriving DecidableEq, Repr

/-- Environment of a stop_video call: whether wait(timeout=5) times out and
whether terminate itself raises (both situations are caught inside
stop_video by its except branches). -/
structure StopEnv where
  waitTimesOut : Bool
  terminateRaises : Bool
deriving DecidableEq, Repr

/-- Model of VideoPlayer.stop_video: clear is_playing; if a process handle is
held and poll() reports it alive, terminate it, wait up to five seconds,
and kill it when the wait times out (any exception in that block is
caught); finally clear current_process. -/
def stop_video (env : StopEnv) (s : VPState) : VPState × List StopAction :=
  let acts :=
    match s.current_process with
    | none => []
    | some p =>
      if p.alive = false then []
      else if env.terminateRaises = true then [StopAction.terminate]
      else if env.waitTimesOut = true then
        [StopAction.terminate, StopAction.wait, StopAction.kill]
      else [StopAction.terminate, StopAction.wait]
  (⟨false, none⟩, acts)

/-- Model of VideoPlayer.is_video_playing. -/
def is_video_playing (s : VPState) : Bool :=
  s.is_playing

/-- Directory entry as Path.iterdir yields it: the stored name (what
str(file_path) returns), its extension as Path.suffix returns it, and
whether it is a regular file. -/
structure DirEntry where
  name : String
  suffix : String
  isFile : Bool
deriving DecidableEq, Repr

/-- Filesystem view of the configured ads directory. -/
structure FS where
  dirExists : Bool
  entries : List DirEntry
deriving DecidableEq, Repr

/-- Scheduler state of AdsPlayer: the running flag, the ads_list playlist and
the current_ad_index position. -/
structure SchedState where
  running : Bool
  ads_list : List String
  current_ad_index : Nat
deriving DecidableEq, Repr

/-- Lower-casing of one character, as Python str.lower() acts on the ASCII
extension strings involved here. -/
def lowerChar (c : Char) : Char :=
  if c.isUpper then Char.ofNat (c.toNat + 32) else c

/-- Lower-casing of a string (the .lower() calls of the source). -/
def toLowerAscii (s : String) : String :=
  String.mk (s.data.map lowerChar)

/-- Model of AdsPlayer.load_ads_content: if the ads directory does not exist,
create it (mkdir) and return early, leaving ads_list untouched; otherwise
rebuild ads_list from the files whose lower-cased extension is in
supported_formats, permuting it with shuf when shuffle_ads is set (shuf
stands for the permutation random.shuffle applies). -/
def load_ads_content (supported_formats : List String) (shuffle_ads : Bool)
    (shuf : List String → List String) (fs : FS) (s : SchedState) : SchedState × FS :=
  if fs.dirExists = false then
    (s, { fs with dirExists := true })
  else
    let files := (fs.entries.filter
      (fun e => e.isFile && supported_formats.contains (toLowerAscii e.suffix))).map DirEntry.name
    let files := if shuffle_ads then shuf files else files
    ({ s with ads_list := files }, fs)

/-- Model of AdsPlayer.next_ad: advance current_ad_index cyclically when the
playlist is non-empty, otherwise do nothing. -/
def next_ad (s : SchedState) : SchedState :=
  if s.ads_list = [] then s
  else { s with current_ad_index := (s.current_ad_index + 1) % s.ads_list.length }

/-- Extension of the final path component, modelling pathlib's Path.suffix:
empty when the final name has no dot or is a bare dotfile, otherwise a dot
followed by the part after the last dot. -/
def suffixOf (path : String) : String :=
  let name := (path.splitOn "/").getLastD ""
  let parts := name.splitOn "."
  if parts.length ≤ 1 then ""
  else if parts.length = 2 && (parts.headD "").isEmpty then ""
  else "." ++ parts.getLastD ""

/-- Model of AdsPlayer.is_video_file: membership of the lower-cased extension
in the fixed video-extension list. -/
def is_video_file (path : String) : Bool :=
  [".mp4", ".avi", ".mov", ".mkv", ".wmv"].contains (toLowerAscii (suffixOf path))

/-- What one call of AdsPlayer.display_current_ad puts on the screen. -/
inductive DispatchResult
  | placeholder
  | image (path : String)
  | video (path : String)
deriving DecidableEq, Repr

/-- Model of AdsPlayer.display_current_ad: an empty playlist renders the
"No Ads Available" placeholder; otherwise index ads_list at
current_ad_index (a Python IndexError on an out-of-range index is the
Except.error case, uncaught in the source) and dispatch on is_video_file. -/
def display_current_ad (s : SchedState) : Except String DispatchResult :=
  if s.ads_list = [] then Except.ok DispatchResult.placeholder
  else
    match s.ads_list.get? s.current_ad_index with
    | none => Except.error "IndexError"
    | some p =>
      Except.ok (if is_video_file p then DispatchResult.video p else DispatchResult.image p)

/-- Pygame events the handler loop distinguishes. -/
inductive PEvent
  | quit
  | key_escape
  | key_q
  | key_space
  | key_r
  | key_s
  | other
deriving DecidableEq, Repr

/-- Model of one iteration of the loop in AdsPlayer.handle_events: QUIT and
the ESC/Q keys clear running, SPACE advances via next_ad, R reloads via
load_ads_content, S shuffles the playlist in place and resets the index to
0 when the playlist is non-empty; every other event is ignored. -/
def handle_event (supported_formats : List String) (shuffle_ads : Bool)
    (shuf : List String → List String) (ev : PEvent) (st : SchedState × FS) :
    SchedState × FS :=
  match ev with
  | PEvent.quit => ({ st.1 with running := false }, st.2)
  | PEvent.key_escape => ({ st.1 with running := false }, st.2)
  | PEvent.key_q => ({ st.1 with running := false }, st.2)
  | PEvent.key_space => (next_ad st.1, st.2)
  | PEvent.key_r => load_ads_content supported_formats shuffle_ads shuf st.2 st.1
  | PEvent.key_s =>
    if st.1.ads_list = [] then st
    else ({ st.1 with ads_list := shuf st.1.ads_list, current_ad_index := 0 }, st.2)
  | PEvent.other => st

/-- Model of AdsPlayer.handle_events: fold handle_event over the polled event
queue. -/
def handle_events (supported_formats : List String) (shuffle_ads : Bool)
    (shuf : List String → List String) (evs : List PEvent) (st : SchedState × FS) :
    SchedState × FS :=
  evs.foldl (fun acc ev => handle_event supported_formats shuffle_ads shuf ev acc) st

/-- Index invariant stated by the spec: whenever the playlist is non-empty
the current index is a valid position in it. -/
def index_invariant (s : SchedState) : Prop :=
  s.ads_list ≠ [] → s.current_ad_index < s.ads_list.length

instance (s : SchedState) : Decidable (index_invariant s) := by
  unfold index_invariant
  infer_instance

/-- Indices visited by one full cycle of advances: the current_ad_index of
the j-th iterate of next_ad, for j = 0 .. len-1. -/
def visitOrder (s : SchedState) : List Nat :=
  (List.range s.ads_list.length).map (fun j => (next_ad^[j] s).current_ad_index)

/-- Truthiness of config.get("force_orientation"): None and the empty string
are falsy, any other string is truthy. -/
def truthyStr : Option String → Bool
  | none => false
  | some s => !s.isEmpty

/-- Model of AdsPlayer.detect_screen_orientation: a truthy force_orientation
picks the canonical resolution for that orientation (the string "16:9"
takes the landscape branch, any other truthy value the portrait branch);
otherwise classify the detected resolution by its aspect ratio, modelling
the float division width/height as the exact rational quotient (landscape
when it exceeds 1). A detection failure — including the ZeroDivisionError a
zero detected height would raise — is caught and falls back to landscape at
1920x1080. Returns (orientation, screen_width, screen_height). -/
def detect_screen_orientation (force_orientation : Option String)
    (detected : Nat × Nat) (detectFails : Bool) : String × Nat × Nat :=
  if truthyStr force_orientation then
    let o := force_orientation.getD ""
    if o = "16:9" then (o, 1920, 1080) else (o, 1080, 1920)
  else if detectFails || detected.2 = 0 then ("16:9", 1920, 1080)
  else if 1 < (detected.1 : ℚ) / (detected.2 : ℚ) then ("16:9", detected.1, detected.2)
  else ("6:19", detected.1, detected.2)

/-- Model of AdsPlayer.scale_image_to_fit: the float comparison
img_ratio > screen_ratio is the exact rational comparison
img_w / img_h > screen_w / screen_h, written cross-multiplied (both
denominators are positive for real surfaces), and Python's int()
truncation of a positive quotient is Nat floor division. Returns
(new_width, new_height). -/
def scale_image_to_fit (img_w img_h screen_w screen_h : Nat) : Nat × Nat :=
  if screen_w * img_h < img_w * screen_h then
    (screen_w, screen_w * img_h / img_w)
  else
    (screen_h * img_w / img_h, screen_h)

/-- JSON-like values stored in the configuration dictionary (arrays of
integers and of strings cover the recognized settings). -/
inductive JValue
  | jnull
  | jbool (b : Bool)
  | jnum (q : ℚ)
  | jstr (s : String)
  | jints (l : List Int)
  | jstrs (l : List String)
deriving DecidableEq, Repr

/-- The default_config table of AdsPlayer.load_config. -/
def default_config : List (String × JValue) := [
  ("ads_directory", JValue.jstr "ads"),
  ("display_duration", JValue.jnum 10),
  ("transition_effect", JValue.jstr "fade"),
  ("autodetect_orientation", JValue.jbool true),
  ("force_orientation", JValue.jnull),
  ("fullscreen", JValue.jbool true),
  ("background_color", JValue.jints [0, 0, 0]),
  ("supported_formats", JValue.jstrs [".jpg", ".jpeg", ".png", ".bmp", ".mp4", ".avi", ".mov"]),
  ("hardware_acceleration", JValue.jbool true),
  ("fps", JValue.jnum 30),
  ("volume", JValue.jnum (7 / 10)),
  ("loop_ads", JValue.jbool true),
  ("shuffle_ads", JValue.jbool false)
]

/-- First-match lookup in an association list, modelling Python dict access
(a json-parsed dict has unique keys). -/
def jlookup (k : String) : List (String × JValue) → Option JValue
  | [] => none
  | (k0, v) :: tl => if k = k0 then some v else jlookup k tl

/-- One step of the merge loop in AdsPlayer.load_config: insert the default
pair only when its key is not already present. -/
def mergeStep (c : List (String × JValue)) (kv : String × JValue) :
    List (String × JValue) :=
  if kv.1 ∈ c.map Prod.fst then c else c ++ [kv]

/-- The merge loop of AdsPlayer.load_config: for each key of default_config
missing from the parsed config, add it with its default value. -/
def merge_defaults (config : List (String × JValue)) : List (String × JValue) :=
  default_config.foldl mergeStep config

/-- Contents of the settings file as load_config observes them. -/
inductive FileState
  | absent
  | malformed
  | parsed (entries : List (String × JValue))

/-- Model of AdsPlayer.load_config: an existing parseable file is merged with
the defaults; an absent file is created with the defaults and the defaults
returned; a file whose content json.load rejects (or any other error in the
try-block) falls back to the defaults entirely. -/
def load_config : FileState → List (String × JValue)
  | FileState.absent => default_config
  | FileState.malformed => default_config
  | FileState.parsed entries => merge_defaults entries

/-- Concrete inputs used by the closed instances below. -/
def defaultFormats : List String := [".jpg", ".jpeg", ".png", ".bmp", ".mp4", ".avi", ".mov"]

def vp0 : VPState := ⟨false, none⟩

def envNoFile : Env := ⟨false, true, true, false, false⟩

def envAllAbsent : Env := ⟨true, false, false, false, false⟩

def envOmxAbsentVlcPresent : Env := ⟨true, false, true, false, false⟩

def launchedBackends (r : Except PyExc (VPState × PlayTrace)) : List Backend :=
  match r with
  | Except.ok p => p.2.launched
  | Except.error _ => []

def sWitness : SchedState := ⟨true, ["a.jpg", "b.jpg", "c.jpg"], 1⟩

def s5 : SchedState := ⟨true, ["a.jpg", "b.jpg", "c.jpg", "d.jpg", "e.jpg"], 4⟩

def fsOne : FS := ⟨true, [⟨"ads/x.jpg", ".jpg", true⟩]⟩

def sOld : SchedState := ⟨true, ["ads/old.jpg"], 0⟩

def fsMissing : FS := ⟨false, []⟩

theorem pygameLoopGo_lt (r : Nat) : ∀ e t, t ∈ pygameLoopGo r e → t < e + r := by
  induction r with
  | zero => intro e t ht; simp [pygameLoopGo] at ht
  | succ n ih =>
    intro e t ht
    rw [pygameLoopGo] at ht
    rcases List.mem_cons.mp ht with h1 | h2
    · omega
    · have := ih (e + 1) t h2
      omega

theorem pygameLoop_lt (duration : Nat) : ∀ t ∈ pygameLoop duration 0, t < duration := by
  intro t ht
  have := pygameLoopGo_lt (duration - 0) 0 t ht
  omega

theorem play_video_omxplayer_ok (env : Env) (duration : Nat) (s : VPState) :
    ∃ r, play_video_omxplayer env duration s = Except.ok r := by
  unfold play_video_omxplayer omx_body play_video_pygame
  by_cases h1 : env.omxPresent = false
  · simp [h1]
  · by_cases h2 : env.omxRuntimeError = true
    · simp [h1, h2]
    · simp [h1, h2]

theorem next_ad_ads_list (s : SchedState) : (next_ad s).ads_list = s.ads_list := by
  unfold next_ad
  split <;> rfl

theorem next_ad_index (t : SchedState) (h : t.ads_list ≠ []) :
    (next_ad t).current_ad_index = (t.current_ad_index + 1) % t.ads_list.length := by
  unfold next_ad
  rw [if_neg h]

theorem iterate_next_ad (s : SchedState) (hne : s.ads_list ≠ [])
    (hi : s.current_ad_index < s.ads_list.length) (j : Nat) :
    (next_ad^[j] s).ads_list = s.ads_list
    ∧ (next_ad^[j] s).current_ad_index
      = (s.current_ad_index + j) % s.ads_list.length := by
  induction j with
  | zero =>
    refine ⟨rfl, ?_⟩
    simp [Nat.mod_eq_of_lt hi]
  | succ j ih =>
    obtain ⟨hl, hidx⟩ := ih
    rw [Function.iterate_succ_apply']
    have hne2 : (next_ad^[j] s).ads_list ≠ [] := by rw [hl]; exact hne
    constructor
    · rw [next_ad_ads_list, hl]
    · rw [next_ad_index _ hne2, hl, hidx, Nat.mod_add_mod, Nat.add_assoc]

theorem index_invariant_iff (t : SchedState) :
    index_invariant t ↔ (t.ads_list = [] ∨ t.current_ad_index < t.ads_list.length) := by
  unfold index_invariant
  by_cases h : t.ads_list = [] <;> simp [h]

theorem jlookup_append_some {l1 l2 : List (String × JValue)} {k : String} {v : JValue}
    (h : jlookup k l1 = some v) : jlookup k (l1 ++ l2) = some v := by
  induction l1 with
  | nil => simp [jlookup] at h
  | cons hd tl ih =>
    obtain ⟨k0, v0⟩ := hd
    rw [List.cons_append]
    rw [jlookup] at h ⊢
    by_cases hk : k = k0
    · rw [if_pos hk] at h ⊢; exact h
    · rw [if_neg hk] at h ⊢; exact ih h

theorem jlookup_append_none {l1 : List (String × JValue)} {k : String}
    (h : jlookup k l1 = none) (l2 : List (String × JValue)) :
    jlookup k (l1 ++ l2) = jlookup k l2 := by
  induction l1 with
  | nil => rfl
  | cons hd tl ih =>
    obtain ⟨k0, v0⟩ := hd
    rw [List.cons_append]
    rw [jlookup] at h ⊢
    by_cases hk : k = k0
    · rw [if_pos hk] at h; exact absurd h (by simp)
    · rw [if_neg hk] at h ⊢; exact ih h

theorem jlookup_eq_none {l : List (String × JValue)} {k : String}
    (h : k ∉ l.map Prod.fst) : jlookup k l = none := by
  induction l with
  | nil => rfl
  | cons hd tl ih =>
    obtain ⟨k0, v0⟩ := hd
    simp only [List.map_cons, List.mem_cons] at h
    push_neg at h
    rw [jlookup, if_neg h.1]
    exact ih h.2

theorem jlookup_isSome {l : List (String × JValue)} {k : String}
    (h : k ∈ l.map Prod.fst) : ∃ v, jlookup k l = some v := by
  induction l with
  | nil => simp at h
  | cons hd tl ih =>
    obtain ⟨k0, v0⟩ := hd
    by_cases hk : k = k0
    · exact ⟨v0, by rw [jlookup, if_pos hk]⟩
    · simp only [List.map_cons, List.mem_cons] at h
      rcases h with h | h
      · exact absurd h hk
      · obtain ⟨v, hv⟩ := ih h
        exact ⟨v, by rw [jlookup, if_neg hk]; exact hv⟩

theorem foldl_mergeStep_append (l : List (String × JValue)) :
    ∀ acc, ∃ rest, List.foldl mergeStep acc l = acc ++ rest := by
  induction l with
  | nil => intro acc; exact ⟨[], by simp⟩
  | cons hd tl ih =>
    intro acc
    rw [List.foldl_cons]
    by_cases h : hd.1 ∈ acc.map Prod.fst
    · rw [show mergeStep acc hd = acc from by unfold mergeStep; rw [if_pos h]]
      exact ih acc
    · rw [show mergeStep acc hd = acc ++ [hd] from by unfold mergeStep; rw [if_neg h]]
      obtain ⟨rest, hrest⟩ := ih (acc ++ [hd])
      exact ⟨[hd] ++ rest, by rw [hrest, List.append_assoc]⟩

theorem foldl_mergeStep_some (l : List (String × JValue)) :
    ∀ acc k v, jlookup k acc = some v →
      jlookup k (List.foldl mergeStep acc l) = some v := by
  induction l with
  | nil => intro acc k v h; exact h
  | cons hd tl ih =>
    intro acc k v h
    rw [List.foldl_cons]
    by_cases hm : hd.1 ∈ acc.map Prod.fst
    · rw [show mergeStep acc hd = acc from by unfold mergeStep; rw [if_pos hm]]
      exact ih acc k v h
    · rw [show mergeStep acc hd = acc ++ [hd] from by unfold mergeStep; rw [if_neg hm]]
      exact ih (acc ++ [hd]) k v (jlookup_append_some h)

theorem foldl_mergeStep_fill (l : List (String × JValue)) :
    ∀ acc k v, (l.map Prod.fst).Nodup → (k, v) ∈ l → k ∉ acc.map Prod.fst →
      jlookup k (List.foldl mergeStep acc l) = some v := by
  induction l with
  | nil => intro acc k v _ hmem _; simp at hmem
  | cons hd tl ih =>
    intro acc k v hnd hmem hacc
    rw [List.map_cons, List.nodup_cons] at hnd
    rw [List.foldl_cons]
    rcases List.mem_cons.mp hmem with heq | htl
    · have hne : hd.1 ∉ acc.map Prod.fst := by
        rw [← heq]
        exact hacc
      rw [show mergeStep acc hd = acc ++ [hd] from by unfold mergeStep; rw [if_neg hne]]
      refine foldl_mergeStep_some tl (acc ++ [hd]) k v ?_
      rw [jlookup_append_none (jlookup_eq_none hacc)]
      rw [← heq, jlookup, if_pos rfl]
    · have hk0 : k ≠ hd.1 := by
        intro hcontra
        exact hnd.1 (hcontra ▸ (List.mem_map.mpr ⟨(k, v), htl, rfl⟩))
      by_cases hm : hd.1 ∈ acc.map Prod.fst
      · rw [show mergeStep acc hd = acc from by unfold mergeStep; rw [if_pos hm]]
        exact ih acc k v hnd.2 htl hacc
      · rw [show mergeStep acc hd = acc ++ [hd] from by unfold mergeStep; rw [if_neg hm]]
        refine ih (acc ++ [hd]) k v hnd.2 htl ?_
        rw [List.map_append]
        simp only [List.mem_append]
        push_neg
        exact ⟨hacc, by simp [hk0]⟩

/-- C7: a forced portrait orientation ("6:19") always resolves to the
canonical 1080x1920 resolution and a forced landscape ("16:9") always to
1920x1080, independent of the detected hardware resolution and of whether
detection would fail. -/
theorem detect_screen_orientation_forced (detected : Nat × Nat) (detectFails : Bool) :
    detect_screen_orientation (some "6:19") detected detectFails = ("6:19", 1080, 1920)
    ∧ detect_screen_orientation (some "16:9") detected detectFails = ("16:9", 1920, 1080) := by
  constructor <;> rfl

/-- C9: stop_video always leaves the session cleared (is_playing false,
current_process none); called on an idle session it performs no process
action and returns the state unchanged; and a second stop after any stop
changes nothing and performs no action, whatever the termination
environment of either call was. -/
theorem stop_video_idempotent :
    (∀ (env : StopEnv) (s : VPState), (stop_video env s).1 = ⟨false, none⟩)
    ∧ (∀ env : StopEnv, stop_video env ⟨false, none⟩ = (⟨false, none⟩, []))
    ∧ (∀ (env env2 : StopEnv) (s : VPState),
        stop_video env2 (stop_video env s).1 = ((stop_video env s).1, [])) := by
  refine ⟨fun env s => rfl, fun env => rfl, fun env env2 s => rfl⟩

/-- C10: play_video on a non-existing path returns at once with the session
state unchanged, no backend launched and no placeholder frame drawn. -/
theorem play_video_missing_path (env : Env) (duration : Nat) (s : VPState)
    (h : env.pathExists = false) :
    play_video env duration s = Except.ok (s, ⟨[], []⟩) := by
  unfold play_video
  rw [if_pos h]

theorem play_video_missing_path_witness :
    play_video envNoFile 10 vp0 = Except.ok (vp0, ⟨[], []⟩) :=
  play_video_missing_path envNoFile 10 vp0 rfl

/-- C1: with the video path present, the omxplayer executable absent and the
VLC executable present, play_video runs only the pygame placeholder:
play_video_omxplayer's FileNotFoundError handler calls play_video_pygame
directly, so the installed VLC backend is never attempted. -/
theorem play_video_skips_vlc :
    launchedBackends (play_video envOmxAbsentVlcPresent 10 vp0) = [Backend.pygame]
    ∧ Backend.vlc ∉ launchedBackends (play_video envOmxAbsentVlcPresent 10 vp0) := by
  refine ⟨rfl, ?_⟩
  intro hmem
  rw [show launchedBackends (play_video envOmxAbsentVlcPresent 10 vp0)
      = [Backend.pygame] from rfl] at hmem
  simp at hmem

/-- C3 counterexample: a scan invoked while the ads directory is missing
creates the directory but returns early, leaving a previously loaded
non-empty playlist in place instead of producing an empty one. -/
theorem scan_missing_dir_keeps_old_playlist :
    (load_ads_content defaultFormats false id fsMissing sOld).2.dirExists = true
    ∧ (load_ads_content defaultFormats false id fsMissing sOld).1.ads_list = ["ads/old.jpg"]
    ∧ (load_ads_content defaultFormats false id fsMissing sOld).1.ads_list ≠ [] := by
  refine ⟨rfl, rfl, by decide⟩

/-- C3 amended: when the configured ads directory does not exist, the scan
creates it on disk and leaves the scheduler state exactly as it was; hence
the playlist is empty after the startup scan, whose state starts with an
empty ads_list, but a reload in the same situation keeps the previous
playlist rather than emptying it. -/
theorem scan_missing_dir (supported_formats : List String) (shuffle_ads : Bool)
    (shuf : List String → List String) (fs : FS) (s : SchedState)
    (h : fs.dirExists = false) :
    load_ads_content supported_formats shuffle_ads shuf fs s
      = (s, { fs with dirExists := true }) := by
  unfold load_ads_content
  rw [if_pos h]

theorem scan_missing_dir_witness :
    load_ads_content defaultFormats false id fsMissing ⟨true, [], 0⟩
      = (⟨true, [], 0⟩, { fsMissing with dirExists := true }) :=
  scan_missing_dir defaultFormats false id fsMissing ⟨true, [], 0⟩ rfl

/-- C5: next_ad maps index i to (i+1) mod len; len iterated advances come
back to the starting index; the visit order over one full cycle is
duplicate-free and covers every index, so every index is visited exactly
once; and on an empty playlist next_ad changes nothing. -/
theorem next_ad_cycles (s : SchedState) (hne : s.ads_list ≠ [])
    (hi : s.current_ad_index < s.ads_list.length) :
    (next_ad s).current_ad_index = (s.current_ad_index + 1) % s.ads_list.length
    ∧ (next_ad^[s.ads_list.length] s).current_ad_index = s.current_ad_index
    ∧ (visitOrder s).Nodup
    ∧ (∀ m, m < s.ads_list.length → m ∈ visitOrder s)
    ∧ (∀ t : SchedState, t.ads_list = [] → next_ad t = t) := by
  have hpos : 0 < s.ads_list.length := List.length_pos.mpr hne
  have hmap : visitOrder s
      = (List.range s.ads_list.length).map
        (fun j => (s.current_ad_index + j) % s.ads_list.length) := by
    unfold visitOrder
    exact List.map_congr_left (fun j _ => (iterate_next_ad s hne hi j).2)
  refine ⟨next_ad_index s hne, ?_, ?_, ?_, ?_⟩
  · rw [(iterate_next_ad s hne hi s.ads_list.length).2, Nat.add_mod_right]
    exact Nat.mod_eq_of_lt hi
  · rw [hmap]
    refine List.Nodup.map_on ?_ (List.nodup_range _)
    intro x hx y hy hxy
    rw [List.mem_range] at hx hy
    have hmm : x % s.ads_list.length = y % s.ads_list.length :=
      Nat.ModEq.add_left_cancel' s.current_ad_index hxy
    rwa [Nat.mod_eq_of_lt hx, Nat.mod_eq_of_lt hy] at hmm
  · intro m hm
    rw [hmap]
    refine List.mem_map.mpr ⟨(m + s.ads_list.length - s.current_ad_index) % s.ads_list.length,
      List.mem_range.mpr (Nat.mod_lt _ hpos), ?_⟩
    rw [Nat.add_mod_mod]
    have harith : s.current_ad_index + (m + s.ads_list.length - s.current_ad_index)
        = m + s.ads_list.length := by omega
    rw [harith, Nat.add_mod_right]
    exact Nat.mod_eq_of_lt hm
  · intro t ht
    unfold next_ad
    rw [if_pos ht]

theorem next_ad_cycles_witness :
    (next_ad sWitness).current_ad_index
      = (sWitness.current_ad_index + 1) % sWitness.ads_list.length :=
  (next_ad_cycles sWitness (by decide) (by decide)).1

/-- C2 counterexample: starting from a five-entry playlist with
current_ad_index 4, a reload key whose rescan finds a single file leaves
the index at 4 in a one-entry playlist — the invariant
0 <= currentIndex < len(Playlist) fails on a non-empty playlist — and the
subsequent dispatch of the current entry raises an index error instead of
displaying an entry. -/
theorem reload_violates_index_invariant :
    ((handle_events defaultFormats false id [PEvent.key_r] (s5, fsOne)).1.ads_list ≠ []
      ∧ ¬ index_invariant (handle_events defaultFormats false id [PEvent.key_r] (s5, fsOne)).1)
    ∧ display_current_ad (handle_events defaultFormats false id [PEvent.key_r] (s5, fsOne)).1
      = Except.error "IndexError" := by
  refine ⟨⟨by decide, by decide⟩, rfl⟩

/-- C2 amended: the index invariant is preserved by the advance operation and
established by the shuffle handler (which resets the index to 0); the
reload handler keeps the index unchanged while replacing the playlist, so
the invariant holds after a reload exactly when the new playlist is empty
or longer than the kept index — in particular a reload that shrinks a
non-empty playlist to a length at most currentIndex violates it. -/
theorem scheduler_index_invariant :
    (∀ s : SchedState, index_invariant s → index_invariant (next_ad s))
    ∧ (∀ (supported_formats : List String) (shuffle_ads : Bool)
        (shuf : List String → List String) (fs : FS) (s : SchedState),
        (∀ l : List String, (shuf l).length = l.length) →
        index_invariant
          (handle_events supported_formats shuffle_ads shuf [PEvent.key_s] (s, fs)).1)
    ∧ (∀ (supported_formats : List String) (shuffle_ads : Bool)
        (shuf : List String → List String) (fs : FS) (s : SchedState),
        (handle_events supported_formats shuffle_ads shuf [PEvent.key_r] (s, fs)).1.current_ad_index
          = s.current_ad_index
        ∧ (index_invariant
            (handle_events supported_formats shuffle_ads shuf [PEvent.key_r] (s, fs)).1
          ↔ ((handle_events supported_formats shuffle_ads shuf [PEvent.key_r] (s, fs)).1.ads_list = []
            ∨ s.current_ad_index
              < (handle_events supported_formats shuffle_ads shuf
                  [PEvent.key_r] (s, fs)).1.ads_list.length))) := by
  refine ⟨?_, ?_, ?_⟩
  · intro s h
    unfold next_ad
    split
    · exact h
    · intro _
      exact Nat.mod_lt _ (List.length_pos.mpr (by assumption))
  · intro supported_formats shuffle_ads shuf fs s hlen
    show index_invariant (handle_event supported_formats shuffle_ads shuf PEvent.key_s (s, fs)).1
    unfold handle_event
    by_cases h : s.ads_list = []
    · rw [if_pos h]
      intro hne
      exact absurd h hne
    · rw [if_neg h]
      intro _
      show 0 < (shuf s.ads_list).length
      rw [hlen s.ads_list]
      exact List.length_pos.mpr h
  · intro supported_formats shuffle_ads shuf fs s
    have heq : handle_events supported_formats shuffle_ads shuf [PEvent.key_r] (s, fs)
        = load_ads_content supported_formats shuffle_ads shuf fs s := rfl
    rw [heq]
    have hidx : (load_ads_content supported_formats shuffle_ads shuf fs s).1.current_ad_index
        = s.current_ad_index := by
      unfold load_ads_content
      split
      · rfl
      · rfl
    refine ⟨hidx, ?_⟩
    rw [index_invariant_iff, hidx]

theorem scheduler_index_invariant_witness :
    index_invariant (handle_events defaultFormats false id [PEvent.key_s] (sWitness, fsOne)).1 :=
  scheduler_index_invariant.2.1 defaultFormats false id fsOne sWitness (fun _ => rfl)

/-- C4: for an existing path, play_video always returns normally (no
exception escapes, whatever backends are absent or failing at runtime);
and with both external backend executables absent it reaches the
in-process pygame placeholder, which draws only frames strictly before the
duration, never fails, and leaves is_playing clear. -/
theorem play_video_total :
    (∀ (env : Env) (duration : Nat) (s : VPState), env.pathExists = true →
      ∃ r, play_video env duration s = Except.ok r)
    ∧ (∀ (env : Env) (duration : Nat) (s : VPState), env.pathExists = true →
        env.omxPresent = false → env.vlcPresent = false → 0 < duration →
        play_video env duration s
          = Except.ok ({ s with is_playing := false },
              ⟨[Backend.pygame], pygameLoop duration 0⟩)
        ∧ ∀ t ∈ pygameLoop duration 0, t < duration) := by
  constructor
  · intro env duration s h
    obtain ⟨r, hr⟩ := play_video_omxplayer_ok env duration s
    refine ⟨r, ?_⟩
    unfold play_video
    rw [if_neg (by simp [h]), hr]
  · intro env duration s h homx _ _
    constructor
    · unfold play_video play_video_omxplayer omx_body play_video_pygame
      rw [if_neg (by simp [h]), if_pos homx]
    · exact pygameLoop_lt duration

theorem play_video_total_witness :
    play_video envAllAbsent 5 vp0
      = Except.ok ({ vp0 with is_playing := false }, ⟨[Backend.pygame], pygameLoop 5 0⟩)
    ∧ ∀ t ∈ pygameLoop 5 0, t < 5 :=
  play_video_total.2 envAllAbsent 5 vp0 rfl rfl rfl (by decide)

/-- C6: scale_image_to_fit picks the bound dimension by the exact aspect
comparison (media wider than canvas: width bound to the canvas width and
height derived from the media aspect by floor division, which approximates
the true aspect-preserving height to within one pixel; otherwise height
bound and width derived likewise); in particular 1280x720 media in a
1080x1920 canvas comes out as width 1080 and height 607 <= 1920. -/
theorem scale_image_to_fit_spec (img_w img_h screen_w screen_h : Nat)
    (hiw : 0 < img_w) (hih : 0 < img_h) (hsw : 0 < screen_w) (hsh : 0 < screen_h) :
    (screen_w * img_h < img_w * screen_h →
      scale_image_to_fit img_w img_h screen_w screen_h
        = (screen_w, screen_w * img_h / img_w)
      ∧ (screen_w * img_h / img_w) * img_w ≤ screen_w * img_h
      ∧ screen_w * img_h < ((screen_w * img_h / img_w) + 1) * img_w)
    ∧ (¬ screen_w * img_h < img_w * screen_h →
      scale_image_to_fit img_w img_h screen_w screen_h
        = (screen_h * img_w / img_h, screen_h)
      ∧ (screen_h * img_w / img_h) * img_h ≤ screen_h * img_w
      ∧ screen_h * img_w < ((screen_h * img_w / img_h) + 1) * img_h)
    ∧ (scale_image_to_fit 1280 720 1080 1920 = (1080, 607) ∧ 607 ≤ 1920) := by
  refine ⟨?_, ?_, by decide, by decide⟩
  · intro hlt
    refine ⟨by unfold scale_image_to_fit; rw [if_pos hlt], Nat.div_mul_le_self _ _, ?_⟩
    exact (Nat.div_lt_iff_lt_mul hiw).mp (Nat.lt_succ_self _)
  · intro hge
    refine ⟨by unfold scale_image_to_fit; rw [if_neg hge], Nat.div_mul_le_self _ _, ?_⟩
    exact (Nat.div_lt_iff_lt_mul hih).mp (Nat.lt_succ_self _)

theorem scale_image_to_fit_spec_witness :
    scale_image_to_fit 1280 720 1080 1920 = (1080, 607) ∧ 607 ≤ 1920 :=
  (scale_image_to_fit_spec 1280 720 1080 1920 (by decide) (by decide) (by decide)
    (by decide)).2.2

/-- C8: load_config of an empty parsed object yields exactly the full default
table; malformed content falls back to the full defaults; every key present
in the parsed file keeps its value through the merge; and every default key
missing from the parsed file is back-filled with its default value. -/
theorem load_config_backfills :
    load_config (FileState.parsed []) = default_config
    ∧ load_config FileState.malformed = default_config
    ∧ (∀ (entries : List (String × JValue)) (k : String),
        k ∈ entries.map Prod.fst →
        jlookup k (load_config (FileState.parsed entries)) = jlookup k entries)
    ∧ (∀ (entries : List (String × JValue)) (k : String) (v : JValue),
        (k, v) ∈ default_config → k ∉ entries.map Prod.fst →
        jlookup k (load_config (FileState.parsed entries)) = some v) := by
  refine ⟨rfl, rfl, ?_, ?_⟩
  · intro entries k hk
    obtain ⟨v, hv⟩ := jlookup_isSome hk
    obtain ⟨rest, hrest⟩ := foldl_mergeStep_append default_config entries
    show jlookup k (merge_defaults entries) = jlookup k entries
    unfold merge_defaults
    rw [hrest, jlookup_append_some hv, hv]
  · intro entries k v hmem hnot
    show jlookup k (merge_defaults entries) = some v
    unfold merge_defaults
    exact foldl_mergeStep_fill default_config entries k v (by decide) hmem hnot

theorem load_config_backfills_witness :
    jlookup "loop_ads" (load_config (FileState.parsed [("fps", JValue.jnum 60)]))
      = some (JValue.jbool true) :=
  load_config_backfills.2.2.2 [("fps", JValue.jnum 60)] "loop_ads" (JValue.jbool true)
    (by decide) (by decide)
